import Mathlib

/-!
# Verification of the video composition engine (`backend/app/services/video_service.py`)

A shallow embedding of the pure logic of the video composition service:
constant tables, canvas sizing, media adaptation geometry, transition
compositing arithmetic, subtitle cue processing, audio mixing durations,
config normalization and the task-status contract.

Conventions of the embedding:
* Python floats that hold media times are modelled as `ℚ`;
  pixel counts as `ℕ`; Python `int(x)` on a nonnegative quotient is `ℕ`
  floor division.
* A Python function that may `raise` is modelled as `Except String _`;
  the error strings are markers, not the exact Python messages.
* A moviepy clip is modelled by the data the claims speak about:
  its pixel size `(w, h)` for the media adapter, its duration for the
  transition compositor and audio mixer.
* A Python dict is modelled as a function `String → Option PyVal`
  (`none` = key absent).
-/

namespace VideoService

/-! ## Constant tables (module-level catalogs of `video_service.py`) -/

/-- `VIDEO_RESOLUTIONS`: name ↦ (width, height) of the base pixel table. -/
def VIDEO_RESOLUTIONS : List (String × ℕ × ℕ) :=
  [("480p", 854, 480), ("720p", 1280, 720), ("1080p", 1920, 1080),
   ("2k", 2560, 1440), ("4k", 3840, 2160)]

/-- `VIDEO_LAYOUTS`: name ↦ aspect ratio `(rw, rh)`. -/
def VIDEO_LAYOUTS : List (String × ℕ × ℕ) :=
  [("9:16", 9, 16), ("3:4", 3, 4), ("1:1", 1, 1),
   ("4:3", 4, 3), ("16:9", 16, 9), ("21:9", 21, 9)]

def RESOLUTION_KEYS : List String := VIDEO_RESOLUTIONS.map (·.1)

def LAYOUT_KEYS : List String := VIDEO_LAYOUTS.map (·.1)

/-- Keys of the `TRANSITIONS` catalog. -/
def TRANSITION_KEYS : List String :=
  ["none", "fade", "slide_left", "slide_right", "slide_up", "slide_down",
   "zoom_in", "zoom_out", "dissolve", "wipe_left", "wipe_right"]

/-- Keys of the `FIT_MODES` catalog. -/
def FIT_MODE_KEYS : List String := ["crop", "fit", "stretch"]

/-- Keys of the `COLOR_FILTERS` catalog. -/
def COLOR_FILTER_KEYS : List String :=
  ["none", "grayscale", "vintage", "warm", "cool", "high_contrast", "soft"]

/-- Keys of the `EFFECT_TYPES` catalog. -/
def EFFECT_TYPE_KEYS : List String :=
  ["none", "ken_burns_in", "ken_burns_out", "shake", "zoom_in", "zoom_out",
   "pan_left", "pan_right", "pan_up", "pan_down"]

def TRANSITION_DURATION_MIN : ℚ := 3/10
def TRANSITION_DURATION_MAX : ℚ := 2
def TRANSITION_DURATION_DEFAULT : ℚ := 1/2

/-! ## Canvas sizer: `calculate_video_size` -/

/--
`calculate_video_size(resolution, layout)`.  Looks up the base table and the
layout ratio, then:
* `rw ≥ rh` (landscape/square): `height = base height`,
  `width = int(height * rw / rh)`;
* `rw < rh` (portrait): `width = base height`, `height = int(width * rh / rw)`;
finally bumps each odd dimension up by one to make it even.
Unknown resolution or layout raises `ValueError`.
-/
def calculate_video_size (resolution layout : String) : Except String (ℕ × ℕ) :=
  match VIDEO_RESOLUTIONS.find? (·.1 == resolution) with
  | none => .error "invalid resolution"
  | some (_, _bw, bh) =>
    match VIDEO_LAYOUTS.find? (·.1 == layout) with
    | none => .error "invalid layout"
    | some (_, rw, rh) =>
      let wh : ℕ × ℕ :=
        if rh ≤ rw then
          let height := bh
          (height * rw / rh, height)
        else
          let width := bh
          (width, width * rh / rw)
      let width := if wh.1 % 2 = 0 then wh.1 else wh.1 + 1
      let height := if wh.2 % 2 = 0 then wh.2 else wh.2 + 1
      .ok (width, height)

/-- Aspect ratio `rw/rh` of a layout, read off the `VIDEO_LAYOUTS` table. -/
def layout_ratio (l : String) : ℚ :=
  match VIDEO_LAYOUTS.find? (·.1 == l) with
  | some (_, rw, rh) => (rw : ℚ) / rh
  | none => 0

/-- Whether a layout is portrait (`rw < rh`), read off the `VIDEO_LAYOUTS` table. -/
def layout_is_portrait (l : String) : Bool :=
  match VIDEO_LAYOUTS.find? (·.1 == l) with
  | some (_, rw, rh) => rw < rh
  | none => false

/-- The `height` field of the `VIDEO_RESOLUTIONS` base table. -/
def base_height (r : String) : ℕ :=
  match VIDEO_RESOLUTIONS.find? (·.1 == r) with
  | some (_, _, bh) => bh
  | none => 0

/-! ## Media adapter: `adapt_media_to_size` and the three fit policies

A moviepy clip is modelled by its pixel size.  `resize(height=h)` /
`resize(width=w)` scale the other axis proportionally with `int` truncation,
`resize(newsize=s)` forces the size, `crop` slices the frame with numpy
clamping semantics, and `CompositeVideoClip(clips, size=s)` has size `s`. -/

/-- A clip's pixel size. -/
structure MClip where
  w : ℕ
  h : ℕ
  deriving DecidableEq, Repr

/-- `clip.resize(newsize=target)`. -/
def resize_newsize (_clip : MClip) (target : ℕ × ℕ) : MClip :=
  ⟨target.1, target.2⟩

/-- `clip.resize(height=h')`: the width scales by `h'/h`, truncated to int. -/
def resize_height (clip : MClip) (h' : ℕ) : MClip :=
  ⟨clip.w * h' / clip.h, h'⟩

/-- `clip.resize(width=w')`: the height scales by `w'/w`, truncated to int. -/
def resize_width (clip : MClip) (w' : ℕ) : MClip :=
  ⟨w', clip.h * w' / clip.w⟩

/-- `clip.crop(x1=.., x2=.., y1=.., y2=..)`: numpy frame slicing
`frame[y1:y2, x1:x2]`, which clamps the bounds to the frame. -/
def crop (clip : MClip) (x1 x2 y1 y2 : ℕ) : MClip :=
  ⟨min x2 clip.w - min x1 clip.w, min y2 clip.h - min y1 clip.h⟩

/-- `CompositeVideoClip(clips, size=target)` has exactly size `target`. -/
def compositeVideoClip (_clips : List MClip) (size : ℕ × ℕ) : MClip :=
  ⟨size.1, size.2⟩

/--
`adapt_media_crop(clip, target_size)`: if the two aspect ratios are within
0.01 of each other, resize directly; if the clip is wider, scale to the target
height and crop the centered horizontal excess; otherwise scale to the target
width and crop the centered vertical excess.
-/
def adapt_media_crop (clip : MClip) (target : ℕ × ℕ) : MClip :=
  let targetRatio : ℚ := (target.1 : ℚ) / target.2
  let clipRatio : ℚ := (clip.w : ℚ) / clip.h
  if |clipRatio - targetRatio| < 1/100 then
    resize_newsize clip target
  else if targetRatio < clipRatio then
    let newW := clip.w * target.2 / clip.h
    let c := resize_height clip target.2
    let xStart := (newW - target.1) / 2
    crop c xStart (xStart + target.1) 0 target.2
  else
    let newH := clip.h * target.1 / clip.w
    let c := resize_width clip target.1
    let yStart := (newH - target.2) / 2
    crop c 0 target.1 yStart (yStart + target.2)

/-- `adapt_media_fit(clip, target_size, bg_color)`: scale to fit inside the
target, then composite centered onto a background of exactly the target size. -/
def adapt_media_fit (clip : MClip) (target : ℕ × ℕ) : MClip :=
  let targetRatio : ℚ := (target.1 : ℚ) / target.2
  let clipRatio : ℚ := (clip.w : ℚ) / clip.h
  let resized :=
    if targetRatio < clipRatio then resize_width clip target.1
    else resize_height clip target.2
  let bg : MClip := ⟨target.1, target.2⟩
  compositeVideoClip [bg, resized] target

/-- `adapt_media_stretch(clip, target_size)`: resize directly, ignoring the
aspect ratio. -/
def adapt_media_stretch (clip : MClip) (target : ℕ × ℕ) : MClip :=
  resize_newsize clip target

/-- `adapt_media_to_size(clip, target_size, fit_mode)`: dispatch on the fit
mode; an unrecognized mode raises `ValueError`. -/
def adapt_media_to_size (clip : MClip) (target : ℕ × ℕ) (fit_mode : String) :
    Except String MClip :=
  if fit_mode ∉ FIT_MODE_KEYS then
    .error "invalid fit mode"
  else if fit_mode = "crop" then .ok (adapt_media_crop clip target)
  else if fit_mode = "fit" then .ok (adapt_media_fit clip target)
  else if fit_mode = "stretch" then .ok (adapt_media_stretch clip target)
  else .ok clip

theorem adapt_media_crop_size (clip : MClip) (target : ℕ × ℕ)
    (hw : 0 < clip.w) (hh : 0 < clip.h) (htw : 0 < target.1) (hth : 0 < target.2) :
    adapt_media_crop clip target = ⟨target.1, target.2⟩ := by
  have hw' : (0:ℚ) < clip.w := by exact_mod_cast hw
  have hh' : (0:ℚ) < clip.h := by exact_mod_cast hh
  have htw' : (0:ℚ) < target.1 := by exact_mod_cast htw
  have hth' : (0:ℚ) < target.2 := by exact_mod_cast hth
  unfold adapt_media_crop
  dsimp only
  split_ifs with h1 h2
  · rfl
  · have hcross : target.1 * clip.h < clip.w * target.2 := by
      have := (div_lt_div_iff₀ hth' hh').mp h2
      exact_mod_cast this
    have hNW : target.1 ≤ clip.w * target.2 / clip.h :=
      (Nat.le_div_iff_mul_le hh).mpr hcross.le
    simp only [resize_height, crop, MClip.mk.injEq]
    generalize clip.w * target.2 / clip.h = N at hNW ⊢
    omega
  · have hlt : (clip.w : ℚ) / clip.h < (target.1 : ℚ) / target.2 := by
      rcases lt_or_eq_of_le (not_lt.mp h2) with h | h
      · exact h
      · exact absurd (by rw [h, sub_self, abs_zero]; norm_num) h1
    have hcross : clip.w * target.2 < target.1 * clip.h := by
      have := (div_lt_div_iff₀ hh' hth').mp hlt
      exact_mod_cast this
    have hNH : target.2 ≤ clip.h * target.1 / clip.w := by
      refine (Nat.le_div_iff_mul_le hw).mpr ?_
      calc target.2 * clip.w = clip.w * target.2 := by ring
        _ ≤ target.1 * clip.h := hcross.le
        _ = clip.h * target.1 := by ring
    simp only [resize_width, crop, MClip.mk.injEq]
    generalize clip.h * target.1 / clip.w = N at hNH ⊢
    omega

theorem adapt_media_fit_size (clip : MClip) (target : ℕ × ℕ) :
    adapt_media_fit clip target = ⟨target.1, target.2⟩ := rfl

theorem adapt_media_stretch_size (clip : MClip) (target : ℕ × ℕ) :
    adapt_media_stretch clip target = ⟨target.1, target.2⟩ := rfl

/-! ## Transition compositor

A clip is modelled by its duration (`ℚ` seconds).  `CompositeVideoClip`
without an explicit duration lasts until the latest end time of its layers;
the slide transition sets its duration explicitly;
`concatenate_videoclips` lasts the sum of the durations. -/

/-- `validate_transition_type`: raises unless the type is in `TRANSITIONS`. -/
def validate_transition_type (t : String) : Except String String :=
  if t ∈ TRANSITION_KEYS then .ok t else .error "invalid transition type"

/-- `validate_transition_duration`: raises unless `0.3 ≤ d ≤ 2.0`. -/
def validate_transition_duration (d : ℚ) : Except String ℚ :=
  if d < TRANSITION_DURATION_MIN ∨ TRANSITION_DURATION_MAX < d then
    .error "invalid transition duration"
  else .ok d

/-- `apply_fade_transition(clip1, clip2, duration)`: if `clip1` is not longer
than the transition, the overlap is locally halved to `clip1.duration * 0.5`;
`clip2` starts at `clip1.duration - duration` and the composite lasts until
the later of the two ends. -/
def apply_fade_transition (a b d : ℚ) : ℚ :=
  let dur := if a ≤ d then a * (1/2) else d
  max a (a - dur + b)

/-- `apply_slide_transition`: same local halving; the composite's duration is
set explicitly to `clip1.duration + clip2.duration - duration`. -/
def apply_slide_transition (a b d : ℚ) : ℚ :=
  let dur := if a ≤ d then a * (1/2) else d
  a + b - dur

/-- `apply_zoom_transition`: simplified in the source to the same cross-fade
composite as `apply_fade_transition` (same local halving and duration). -/
def apply_zoom_transition (a b d : ℚ) : ℚ :=
  let dur := if a ≤ d then a * (1/2) else d
  max a (a - dur + b)

/-- `apply_dissolve_transition` delegates to `apply_fade_transition`. -/
def apply_dissolve_transition (a b d : ℚ) : ℚ := apply_fade_transition a b d

/-- `apply_wipe_transition` delegates to `apply_fade_transition`. -/
def apply_wipe_transition (a b d : ℚ) : ℚ := apply_fade_transition a b d

/-- Python's `t.startswith(p)`, computed on the underlying character lists. -/
def strStartsWith (s p : String) : Bool := p.data.isPrefixOf s.data

/-- `apply_transition(clip1, clip2, transition_type, duration)`: validates the
type, validates the duration unless the type is `"none"`, then dispatches;
`"none"` concatenates (duration `a + b`). -/
def apply_transition (a b : ℚ) (t : String) (d : ℚ) : Except String ℚ :=
  match validate_transition_type t with
  | .error e => .error e
  | .ok _ =>
    match (if t ≠ "none" then validate_transition_duration d else .ok d) with
    | .error e => .error e
    | .ok _ =>
      if t = "none" then .ok (a + b)
      else if t = "fade" then .ok (apply_fade_transition a b d)
      else if strStartsWith t "slide_" then .ok (apply_slide_transition a b d)
      else if strStartsWith t "zoom_" then .ok (apply_zoom_transition a b d)
      else if t = "dissolve" then .ok (apply_dissolve_transition a b d)
      else if strStartsWith t "wipe_" then .ok (apply_wipe_transition a b d)
      else .ok (a + b)

/-- The `for i in range(1, len(clips))` loop of `apply_transitions_to_clips`:
an exception raised by `apply_transition` propagates. -/
def fold_transitions (t : String) (d : ℚ) : ℚ → List ℚ → Except String ℚ
  | acc, [] => .ok acc
  | acc, x :: xs =>
    match apply_transition acc x t d with
    | .error e => .error e
    | .ok r => fold_transitions t d r xs

/-- `apply_transitions_to_clips(clips, transition_type, duration)`: raises on
an empty list, returns the sole clip unchanged for a singleton, otherwise
validates the transition config and folds `apply_transition` pairwise. -/
def apply_transitions_to_clips (clips : List ℚ) (t : String) (d : ℚ) :
    Except String ℚ :=
  match clips with
  | [] => .error "empty clip list"
  | [c] => .ok c
  | c :: rest =>
    match validate_transition_type t with
    | .error e => .error e
    | .ok _ =>
      match (if t ≠ "none" then validate_transition_duration d else .ok d) with
      | .error e => .error e
      | .ok _ => fold_transitions t d c rest

theorem validate_transition_duration_ok {d : ℚ}
    (hmin : TRANSITION_DURATION_MIN ≤ d) (hmax : d ≤ TRANSITION_DURATION_MAX) :
    validate_transition_duration d = .ok d := by
  unfold validate_transition_duration
  rw [if_neg]
  push_neg
  exact ⟨hmin, hmax⟩

theorem apply_fade_transition_eq {a b d : ℚ} (ha : d < a) (hb : d ≤ b) :
    apply_fade_transition a b d = a + b - d := by
  unfold apply_fade_transition
  dsimp only
  rw [if_neg (not_le.mpr ha), max_eq_right (by linarith)]
  ring

theorem apply_slide_transition_eq {a b d : ℚ} (ha : d < a) :
    apply_slide_transition a b d = a + b - d := by
  unfold apply_slide_transition
  dsimp only
  rw [if_neg (not_le.mpr ha)]

theorem apply_zoom_transition_eq {a b d : ℚ} (ha : d < a) (hb : d ≤ b) :
    apply_zoom_transition a b d = a + b - d := by
  unfold apply_zoom_transition
  dsimp only
  rw [if_neg (not_le.mpr ha), max_eq_right (by linarith)]
  ring

/-- When both clips are strictly longer than a valid transition duration, any
non-`"none"` transition composes them to duration `a + b - d`. -/
theorem apply_transition_valid_eq (a b d : ℚ) (t : String) (ht : t ∈ TRANSITION_KEYS)
    (hne : t ≠ "none") (hmin : TRANSITION_DURATION_MIN ≤ d)
    (hmax : d ≤ TRANSITION_DURATION_MAX) (ha : d < a) (hb : d < b) :
    apply_transition a b t d = .ok (a + b - d) := by
  have hvd := validate_transition_duration_ok hmin hmax
  fin_cases ht
  · exact absurd rfl hne
  all_goals
    simp [apply_transition, validate_transition_type, TRANSITION_KEYS, List.mem_cons, hvd,
      apply_dissolve_transition, apply_wipe_transition,
      apply_fade_transition_eq ha hb.le, apply_slide_transition_eq ha,
      apply_zoom_transition_eq ha hb.le,
      (by decide : strStartsWith "slide_left" "slide_" = true),
      (by decide : strStartsWith "slide_right" "slide_" = true),
      (by decide : strStartsWith "slide_up" "slide_" = true),
      (by decide : strStartsWith "slide_down" "slide_" = true),
      (by decide : strStartsWith "zoom_in" "slide_" = false),
      (by decide : strStartsWith "zoom_out" "slide_" = false),
      (by decide : strStartsWith "zoom_in" "zoom_" = true),
      (by decide : strStartsWith "zoom_out" "zoom_" = true),
      (by decide : strStartsWith "dissolve" "slide_" = false),
      (by decide : strStartsWith "dissolve" "zoom_" = false),
      (by decide : strStartsWith "wipe_left" "slide_" = false),
      (by decide : strStartsWith "wipe_right" "slide_" = false),
      (by decide : strStartsWith "wipe_left" "zoom_" = false),
      (by decide : strStartsWith "wipe_right" "zoom_" = false),
      (by decide : strStartsWith "wipe_left" "wipe_" = true),
      (by decide : strStartsWith "wipe_right" "wipe_" = true)]

theorem apply_fade_transition_half {a b d : ℚ} (ha : a ≤ d) (hb : a * (1/2) ≤ b) :
    apply_fade_transition a b d = a + b - a * (1/2) := by
  unfold apply_fade_transition
  dsimp only
  rw [if_pos ha, max_eq_right (by linarith)]
  ring

theorem apply_slide_transition_half {a b d : ℚ} (ha : a ≤ d) :
    apply_slide_transition a b d = a + b - a * (1/2) := by
  unfold apply_slide_transition
  dsimp only
  rw [if_pos ha]

theorem apply_zoom_transition_half {a b d : ℚ} (ha : a ≤ d) (hb : a * (1/2) ≤ b) :
    apply_zoom_transition a b d = a + b - a * (1/2) := by
  unfold apply_zoom_transition
  dsimp only
  rw [if_pos ha, max_eq_right (by linarith)]
  ring

/-- When the first clip is not longer than the (valid) transition duration,
the overlap is locally reduced to half the first clip's duration. -/
theorem apply_transition_half_eq (a b d : ℚ) (t : String) (ht : t ∈ TRANSITION_KEYS)
    (hne : t ≠ "none") (hmin : TRANSITION_DURATION_MIN ≤ d)
    (hmax : d ≤ TRANSITION_DURATION_MAX) (ha : a ≤ d) (hb : a * (1/2) ≤ b) :
    apply_transition a b t d = .ok (a + b - a * (1/2)) := by
  have hvd := validate_transition_duration_ok hmin hmax
  fin_cases ht
  · exact absurd rfl hne
  all_goals
    simp [apply_transition, validate_transition_type, TRANSITION_KEYS, List.mem_cons, hvd,
      apply_dissolve_transition, apply_wipe_transition,
      apply_fade_transition_half ha hb, apply_slide_transition_half ha,
      apply_zoom_transition_half ha hb,
      (by decide : strStartsWith "slide_left" "slide_" = true),
      (by decide : strStartsWith "slide_right" "slide_" = true),
      (by decide : strStartsWith "slide_up" "slide_" = true),
      (by decide : strStartsWith "slide_down" "slide_" = true),
      (by decide : strStartsWith "zoom_in" "slide_" = false),
      (by decide : strStartsWith "zoom_out" "slide_" = false),
      (by decide : strStartsWith "zoom_in" "zoom_" = true),
      (by decide : strStartsWith "zoom_out" "zoom_" = true),
      (by decide : strStartsWith "dissolve" "slide_" = false),
      (by decide : strStartsWith "dissolve" "zoom_" = false),
      (by decide : strStartsWith "wipe_left" "slide_" = false),
      (by decide : strStartsWith "wipe_right" "slide_" = false),
      (by decide : strStartsWith "wipe_left" "zoom_" = false),
      (by decide : strStartsWith "wipe_right" "zoom_" = false),
      (by decide : strStartsWith "wipe_left" "wipe_" = true),
      (by decide : strStartsWith "wipe_right" "wipe_" = true)]

theorem fold_transitions_eq (t : String) (d : ℚ) (ht : t ∈ TRANSITION_KEYS)
    (hne : t ≠ "none") (hmin : TRANSITION_DURATION_MIN ≤ d)
    (hmax : d ≤ TRANSITION_DURATION_MAX) :
    ∀ (rest : List ℚ) (acc : ℚ), d < acc → (∀ x ∈ rest, d < x) →
      fold_transitions t d acc rest = .ok (acc + rest.sum - rest.length * d) := by
  intro rest
  induction rest with
  | nil =>
    intro acc hacc _
    simp [fold_transitions]
  | cons x xs ih =>
    intro acc hacc hall
    have hx : d < x := hall x (by simp)
    have hxs : ∀ y ∈ xs, d < y := fun y hy => hall y (by simp [hy])
    have hacc' : d < acc + x - d := by
      have hd0 : (0:ℚ) < d := lt_of_lt_of_le (by norm_num [TRANSITION_DURATION_MIN]) hmin
      linarith
    rw [fold_transitions, apply_transition_valid_eq acc x d t ht hne hmin hmax hacc hx]
    dsimp only
    rw [ih (acc + x - d) hacc' hxs]
    congr 1
    push_cast [List.sum_cons, List.length_cons]
    ring

/-! ## Subtitle renderer: precise-cue processing in `create_video_from_config`

Models the `sentence_subtitles` loop (one iteration per supplied cue):
empty-text cues are skipped, non-positive-duration cues are skipped, cues
starting at or after the composed duration are skipped, and a cue end past
the composed duration is truncated to it. -/

/-- A precise subtitle cue `{text, start, end}`. -/
structure Cue where
  text : String
  start : ℚ
  stop : ℚ
  deriving DecidableEq, Repr

/-- A rendered caption: a `TextClip` of duration `dur` started at `start`. -/
structure Caption where
  text : String
  start : ℚ
  dur : ℚ
  deriving DecidableEq, Repr

/-- The precise-cue branch of the subtitle stage of `create_video_from_config`
(`for sub in sentence_subtitles: ...`), given the composed video duration. -/
def process_sentence_subtitles (actual : ℚ) : List Cue → List Caption
  | [] => []
  | sub :: rest =>
    if sub.text = "" then process_sentence_subtitles actual rest
    else if sub.stop - sub.start ≤ 0 then process_sentence_subtitles actual rest
    else if actual ≤ sub.start then process_sentence_subtitles actual rest
    else
      let stop := if actual < sub.stop then actual else sub.stop
      ⟨sub.text, sub.start, stop - sub.start⟩ :: process_sentence_subtitles actual rest

/-- The caption list that C5, read literally, prescribes: one caption per cue
with non-empty text, dropping exactly the cues starting at or after the
composed duration, truncating ends to the composed duration.  (Stated from
the claim's words, for comparison with `process_sentence_subtitles`.) -/
def claimed_sentence_subtitles (actual : ℚ) (subs : List Cue) : List Caption :=
  (subs.filter (fun c => decide (c.text ≠ "" ∧ c.start < actual))).map
    (fun c => ⟨c.text, c.start, min c.stop actual - c.start⟩)

/-! ## Audio mixer: `mix_audio_tracks`

An audio clip is modelled by its duration.  `audio_loop(clip, duration=D)`
and `subclip(0, D)` both last `D`; `volumex` and the fade effects preserve
duration; `CompositeAudioClip` lasts until its longest layer ends. -/

def BGM_VOLUME_MIN : ℚ := 0
def BGM_VOLUME_MAX : ℚ := 1
def BGM_FADE_MIN : ℚ := 0
def BGM_FADE_MAX : ℚ := 5

/-- `validate_bgm_volume`: raises unless `0 ≤ v ≤ 1`. -/
def validate_bgm_volume (v : ℚ) : Except String ℚ :=
  if v < BGM_VOLUME_MIN ∨ BGM_VOLUME_MAX < v then .error "invalid bgm volume" else .ok v

/-- `validate_bgm_fade_in`: raises unless `0 ≤ f ≤ 5`. -/
def validate_bgm_fade_in (f : ℚ) : Except String ℚ :=
  if f < BGM_FADE_MIN ∨ BGM_FADE_MAX < f then .error "invalid bgm fade in" else .ok f

/-- `validate_bgm_fade_out`: raises unless `0 ≤ f ≤ 5`. -/
def validate_bgm_fade_out (f : ℚ) : Except String ℚ :=
  if f < BGM_FADE_MIN ∨ BGM_FADE_MAX < f then .error "invalid bgm fade out" else .ok f

/-- `apply_bgm_fade_effects`: re-validates the fades; `audio_fadein` and
`audio_fadeout` do not change the clip's duration. -/
def apply_bgm_fade_effects (b fin fout : ℚ) : Except String ℚ :=
  match validate_bgm_fade_in fin with
  | .error e => .error e
  | .ok _ =>
    match validate_bgm_fade_out fout with
    | .error e => .error e
    | .ok _ => .ok b

/-- `CompositeAudioClip(clips)` lasts until its longest layer ends. -/
def compositeAudioDuration (l : List ℚ) : ℚ := l.foldr max 0

/--
`mix_audio_tracks(voice_audio, bgm_audio, bgm_volume, bgm_fade_in,
bgm_fade_out, target_duration)`: validates the BGM parameters, determines the
final duration (explicit target, else voice, else BGM, else returns `None`),
truncates an over-long voice to the target, loops/truncates the BGM to the
final duration, and returns the single track or the composite.
`none`/`some` model Python `None`/present; the payload is the duration.
-/
def mix_audio_tracks (voice bgm : Option ℚ) (vol fin fout : ℚ)
    (target : Option ℚ) : Except String (Option ℚ) :=
  match validate_bgm_volume vol with
  | .error e => .error e
  | .ok _ =>
  match validate_bgm_fade_in fin with
  | .error e => .error e
  | .ok _ =>
  match validate_bgm_fade_out fout with
  | .error e => .error e
  | .ok _ =>
  match target, voice, bgm with
  | none, none, none => .ok none
  | _, _, _ =>
    let finalDuration : ℚ :=
      match target, voice, bgm with
      | some t, _, _ => t
      | none, some v, _ => v
      | none, none, some b => b
      | none, none, none => 0
    let voiceClips : List ℚ :=
      match voice with
      | none => []
      | some v =>
        match target with
        | some t => if v ≠ t ∧ ¬ (v < t) then [t] else [v]
        | none => [v]
    match bgm with
    | none =>
      match voiceClips with
      | [] => .ok none
      | [a] => .ok (some a)
      | l => .ok (some (compositeAudioDuration l))
    | some b =>
      let b1 := if b < finalDuration then finalDuration
                else if finalDuration < b then finalDuration else b
      match apply_bgm_fade_effects b1 fin fout with
      | .error e => .error e
      | .ok b2 =>
        match voiceClips ++ [b2] with
        | [a] => .ok (some a)
        | l => .ok (some (compositeAudioDuration l))

/-! ## Task state machine: `build_task_status_response` and
`TaskStatusResponse.to_dict` -/

/-- Truthiness of an optional Python string (`None` and `""` are falsy). -/
def truthyStr (s : Option String) : Bool :=
  match s with
  | none => false
  | some v => v ≠ ""

/-- `get_task_status_name`: the `TASK_STATUS_NAMES` mapping with fallback
`"unknown"`.  Status codes are arbitrary integers. -/
def get_task_status_name (code : ℤ) : String :=
  if code = 0 then "pending"
  else if code = 1 then "processing"
  else if code = 2 then "completed"
  else if code = 3 then "failed"
  else "unknown"

/-- The `TaskStatusResponse` object (constructor fields). -/
structure TaskStatusResponse where
  status : String
  progress : ℤ
  message : String
  download_url : Option String
  error_message : Option String
  duration : Option ℚ
  task_id : Option String
  deriving DecidableEq, Repr

/-- The dict produced by `TaskStatusResponse.to_dict`; `none` models an
absent key. -/
structure TaskStatusDict where
  status : String
  progress : ℤ
  message : String
  task_id : Option String
  download_url : Option String
  duration : Option ℚ
  error_message : Option String
  deriving DecidableEq, Repr

/-- `TaskStatusResponse.to_dict`: always emits `status`, `progress`,
`message`; `task_id` when truthy; `download_url` (when truthy) and `duration`
(when not `None`) only under `status == "completed"`; `error_message` (when
truthy) only under `status == "failed"`. -/
def TaskStatusResponse.to_dict (r : TaskStatusResponse) : TaskStatusDict where
  status := r.status
  progress := r.progress
  message := r.message
  task_id := if truthyStr r.task_id then r.task_id else none
  download_url :=
    if r.status = "completed" ∧ truthyStr r.download_url then r.download_url else none
  duration :=
    if r.status = "completed" ∧ r.duration.isSome then r.duration else none
  error_message :=
    if r.status = "failed" ∧ truthyStr r.error_message then r.error_message else none

/-- Default per-state messages of `build_task_status_response`
(`"未知状态"` for an unknown code). -/
def default_status_message (code : ℤ) : String :=
  if code = 0 then "等待处理..."
  else if code = 1 then "正在处理..."
  else if code = 2 then "视频生成完成"
  else if code = 3 then "视频生成失败"
  else "未知状态"

/-- `build_task_status_response(status_code, progress, progress_message,
error_message, download_url, duration, task_id)`: clamps progress to
`[0, 100]`, substitutes a default message for a falsy one, forces progress to
100 on `completed` (code 2) and to 0 on `failed` (code 3), and passes
`download_url`/`duration` only for code 2 and `error_message` only for
code 3. -/
def build_task_status_response (code : ℤ) (progress : ℤ) (msg : Option String)
    (err dl : Option String) (dur : Option ℚ) (tid : Option String) :
    TaskStatusResponse :=
  let statusName := get_task_status_name code
  let p0 := max 0 (min 100 progress)
  let m := if truthyStr msg then msg.getD "" else default_status_message code
  let p1 := if code = 2 then 100 else p0
  let p2 := if code = 3 then 0 else p1
  { status := statusName
    progress := p2
    message := m
    download_url := if code = 2 then dl else none
    error_message := if code = 3 then err else none
    duration := if code = 2 then dur else none
    task_id := tid }

/-! ## Config normalizer: `get_config_with_defaults`

A Python dict is a function `String → Option PyVal` (`none` = key absent);
`get_config_with_defaults` fills every key of the defaults table with
`config.get(key, default)` and passes all other keys through unchanged. -/

/-- A Python value as stored in a config dict. -/
inductive PyVal where
  | pyNone : PyVal
  | pyStr : String → PyVal
  | pyRat : ℚ → PyVal
  | pyBool : Bool → PyVal
  deriving DecidableEq, Repr

/-- The key ↦ default table of `get_config_with_defaults` (the `result`
dict literal, with each `config.get(key, DEFAULT)` second argument). -/
def CONFIG_DEFAULTS : List (String × PyVal) :=
  [("video_resolution", .pyStr "1080p"),
   ("video_layout", .pyStr "9:16"),
   ("video_fps", .pyRat 30),
   ("fit_mode", .pyStr "crop"),
   ("transition_type", .pyStr "fade"),
   ("transition_duration", .pyRat (1/2)),
   ("transition_enabled", .pyBool true),
   ("brightness", .pyRat 1),
   ("contrast", .pyRat 1),
   ("saturation", .pyRat 1),
   ("color_filter", .pyStr "none"),
   ("effect_type", .pyNone),
   ("bgm_volume", .pyRat (3/10)),
   ("bgm_fade_in", .pyRat 0),
   ("bgm_fade_out", .pyRat 0),
   ("bgm_enabled", .pyBool false),
   ("clip_min_duration", .pyRat 3),
   ("clip_max_duration", .pyRat 10),
   ("subtitle_enabled", .pyBool true),
   ("subtitle_font", .pyStr "Heiti-SC-Medium"),
   ("subtitle_size", .pyRat 48),
   ("subtitle_color", .pyStr "#FFFFFF"),
   ("subtitle_stroke_color", .pyStr "#000000"),
   ("subtitle_stroke_width", .pyRat 2),
   ("subtitle_position", .pyStr "bottom"),
   ("output_quality", .pyStr "high")]

/-- A Python dict, as the map it denotes. -/
def PyDict : Type := String → Option PyVal

/-- `get_config_with_defaults(config)`: every key of the defaults table is
present in the result, holding `config.get(key, default)`; every other key
of `config` is preserved unchanged. -/
def get_config_with_defaults (config : PyDict) : PyDict :=
  fun k =>
    match CONFIG_DEFAULTS.find? (·.1 == k) with
    | some p => some ((config k).getD p.2)
    | none => config k

/-! ## Soft-fail policy of `create_video_from_config`

Each `try: clip = f(clip)\nexcept Exception: pass` site is `soft_apply`;
a Python exception is an `Except.error`.  The transition block falls back to
`concatenate_videoclips` (duration: the sum). -/

/-- `try: x = f(x)\nexcept Exception: pass`. -/
def soft_apply {α : Type} (f : α → Except String α) (x : α) : α :=
  match f x with
  | .ok y => y
  | .error _ => x

/-- The per-clip transform chain of `create_video_from_config`
(lines 2922–2951): motion effect (images only, when set and not `"none"`),
color filter (when set and not `"none"`), then brightness/contrast/saturation
adjustment (when any differs from 1.0) — each site soft-fails. -/
def apply_clip_transforms {α : Type} (isImage : Bool) (clip : α)
    (effect_type : Option String) (effectF : α → Except String α)
    (color_filter : Option String) (colorF : α → Except String α)
    (brightness contrast saturation : ℚ) (adjF : α → Except String α) : α :=
  let c1 := if isImage ∧ truthyStr effect_type ∧ effect_type ≠ some "none" then
      soft_apply effectF clip
    else clip
  let c2 := if truthyStr color_filter ∧ color_filter ≠ some "none" then
      soft_apply colorF c1
    else c1
  if brightness ≠ 1 ∨ contrast ≠ 1 ∨ saturation ≠ 1 then soft_apply adjF c2 else c2

/-- The transition block of `create_video_from_config` (lines 2966–2976):
on any exception from `apply_transitions_to_clips` the segments are
hard-concatenated instead. -/
def compose_with_fallback (clips : List ℚ) (t : String) (d : ℚ) : ℚ :=
  match apply_transitions_to_clips clips t d with
  | .ok r => r
  | .error _ => clips.sum

theorem soft_apply_error {α : Type} {f : α → Except String α}
    (h : ∀ x, ∃ e, f x = .error e) : ∀ x, soft_apply f x = x := by
  intro x
  obtain ⟨e, he⟩ := h x
  simp [soft_apply, he]

/-! ## Styling-parameter normalization in `create_video_from_config`
(lines 2826–2857) -/

def BRIGHTNESS_MIN : ℚ := 1/2
def BRIGHTNESS_MAX : ℚ := 2
def CONTRAST_MIN : ℚ := 1/2
def CONTRAST_MAX : ℚ := 2
def SATURATION_MIN : ℚ := 0
def SATURATION_MAX : ℚ := 2

/-- The styling keys of the render config that lines 2826–2857 read;
`none` = key absent.  `effect_type` distinguishes an absent key
(`none`) from a present key holding Python `None` (`some none`). -/
structure RawStyleConfig where
  fit_mode : Option String
  transition_enabled : Option Bool
  transition_type : Option String
  transition_duration : Option ℚ
  effect_type : Option (Option String)
  color_filter : Option String
  brightness : Option ℚ
  contrast : Option ℚ
  saturation : Option ℚ
  deriving DecidableEq, Repr

/-- The styling parameters after normalization. -/
structure StyleParams where
  fit_mode : String
  transition_enabled : Bool
  transition_type : String
  transition_duration : ℚ
  effect_type : Option String
  color_filter : String
  brightness : ℚ
  contrast : ℚ
  saturation : ℚ
  deriving DecidableEq, Repr

/--
The styling-parameter block of `create_video_from_config`:
* `fit_mode = config.get("fit_mode", "crop")`, replaced by `"crop"` if not a
  known fit mode;
* `transition_type` defaulted to `"fade"` and replaced by `"fade"` if
  unknown; `transition_duration` defaulted to 0.5 and replaced by 0.5 if
  outside `[0.3, 2.0]`;
* `effect_type = config.get("effect_type", "none")`, replaced by `"none"`
  only when truthy and unknown; `color_filter` defaulted to `"none"`,
  replaced by `"none"` if unknown;
* brightness/contrast/saturation clamped into their ranges.
-/
def resolve_style_config (c : RawStyleConfig) : StyleParams :=
  let fit0 := c.fit_mode.getD "crop"
  let fit := if fit0 ∉ FIT_MODE_KEYS then "crop" else fit0
  let tEnabled := c.transition_enabled.getD true
  let tt0 := c.transition_type.getD "fade"
  let tt := if tt0 ∉ TRANSITION_KEYS then "fade" else tt0
  let td0 := c.transition_duration.getD TRANSITION_DURATION_DEFAULT
  let td := if td0 < TRANSITION_DURATION_MIN ∨ TRANSITION_DURATION_MAX < td0 then
      TRANSITION_DURATION_DEFAULT
    else td0
  let et0 : Option String := c.effect_type.getD (some "none")
  let et := if truthyStr et0 ∧ et0.getD "" ∉ EFFECT_TYPE_KEYS then some "none" else et0
  let cf0 := c.color_filter.getD "none"
  let cf := if cf0 ∉ COLOR_FILTER_KEYS then "none" else cf0
  let b := max BRIGHTNESS_MIN (min BRIGHTNESS_MAX (c.brightness.getD 1))
  let con := max CONTRAST_MIN (min CONTRAST_MAX (c.contrast.getD 1))
  let sat := max SATURATION_MIN (min SATURATION_MAX (c.saturation.getD 1))
  ⟨fit, tEnabled, tt, td, et, cf, b, con, sat⟩

end VideoService

open VideoService in
/-- **C2.** For every positive source clip size, positive target canvas size
and fit mode: if the mode is one of `crop`, `fit`, `stretch` then
`adapt_media_to_size` returns a clip whose pixel dimensions equal the target
exactly; any other mode raises `ValueError`. -/
theorem c2_adapt_media_to_size_exact :
    ∀ (clip : MClip) (target : ℕ × ℕ) (fit_mode : String),
      0 < clip.w → 0 < clip.h → 0 < target.1 → 0 < target.2 →
      (fit_mode ∈ FIT_MODE_KEYS →
        adapt_media_to_size clip target fit_mode = .ok ⟨target.1, target.2⟩) ∧
      (fit_mode ∉ FIT_MODE_KEYS →
        adapt_media_to_size clip target fit_mode = .error "invalid fit mode") := by
  intro clip target fit_mode hw hh htw hth
  constructor
  · intro hmem
    fin_cases hmem <;>
      simp [adapt_media_to_size, adapt_media_crop_size clip target hw hh htw hth,
        adapt_media_fit_size, adapt_media_stretch_size] <;>
      decide
  · intro hmem
    simp only [adapt_media_to_size, if_pos hmem]

open VideoService in
/-- Witness for C2: a 100×50 clip adapted to a 30×40 canvas in each mode, and
a rejected unknown mode. -/
theorem c2_adapt_media_to_size_exact_witness :
    (adapt_media_to_size ⟨100, 50⟩ (30, 40) "crop" = .ok ⟨30, 40⟩) ∧
    (adapt_media_to_size ⟨100, 50⟩ (30, 40) "fit" = .ok ⟨30, 40⟩) ∧
    (adapt_media_to_size ⟨100, 50⟩ (30, 40) "stretch" = .ok ⟨30, 40⟩) ∧
    (adapt_media_to_size ⟨100, 50⟩ (30, 40) "cover" = .error "invalid fit mode") :=
  ⟨(c2_adapt_media_to_size_exact ⟨100, 50⟩ (30, 40) "crop"
      (by decide) (by decide) (by decide) (by decide)).1 (by decide),
   (c2_adapt_media_to_size_exact ⟨100, 50⟩ (30, 40) "fit"
      (by decide) (by decide) (by decide) (by decide)).1 (by decide),
   (c2_adapt_media_to_size_exact ⟨100, 50⟩ (30, 40) "stretch"
      (by decide) (by decide) (by decide) (by decide)).1 (by decide),
   (c2_adapt_media_to_size_exact ⟨100, 50⟩ (30, 40) "cover"
      (by decide) (by decide) (by decide) (by decide)).2 (by decide)⟩

open VideoService

/-- A quotient of naturals lies within 1% relative error of `rw/rh` as soon as
the cross-multiplied bounds `99·rw·h ≤ 100·w·rh ≤ 101·rw·h` hold. -/
theorem ratio_within_percent {w h rw rh : ℕ} (hh : 0 < h) (hrh : 0 < rh)
    (h1 : 99 * (rw * h) ≤ 100 * (w * rh)) (h2 : 100 * (w * rh) ≤ 101 * (rw * h)) :
    |(w : ℚ) / h - (rw : ℚ) / rh| ≤ ((rw : ℚ) / rh) / 100 := by
  have hh' : (0:ℚ) < h := by exact_mod_cast hh
  have hrh' : (0:ℚ) < rh := by exact_mod_cast hrh
  have h1' : (99:ℚ) * ((rw:ℚ) * h) ≤ 100 * ((w:ℚ) * rh) := by exact_mod_cast h1
  have h2' : (100:ℚ) * ((w:ℚ) * rh) ≤ 101 * ((rw:ℚ) * h) := by exact_mod_cast h2
  rw [abs_le, div_sub_div _ _ hh'.ne' hrh'.ne', div_div]
  constructor
  · rw [neg_le, ← neg_div, div_le_div_iff₀ (mul_pos hh' hrh') (by positivity)]
    nlinarith [hrh'.le, hh'.le]
  · rw [div_le_div_iff₀ (mul_pos hh' hrh') (by positivity)]
    nlinarith [hrh'.le, hh'.le]

/-- **C1.** For every supported resolution and layout, `calculate_video_size`
succeeds and returns a pair `(width, height)` of positive even integers whose
ratio `width/height` matches the layout's aspect ratio `rw/rh` within 1%
relative error, and in the portrait case (`rw < rh`) the base table's height
value is returned as the output width. -/
theorem c1_calculate_video_size_ok :
    ∀ r ∈ RESOLUTION_KEYS, ∀ l ∈ LAYOUT_KEYS,
      ∃ w h : ℕ, calculate_video_size r l = .ok (w, h) ∧
        0 < w ∧ 0 < h ∧ w % 2 = 0 ∧ h % 2 = 0 ∧
        |(w : ℚ) / h - layout_ratio l| ≤ layout_ratio l / 100 ∧
        (layout_is_portrait l = true → w = base_height r) := by
  intro r hr l hl
  fin_cases hr <;> fin_cases hl <;>
    exact ⟨_, _, rfl, by decide, by decide, by decide, by decide,
      ratio_within_percent (by decide) (by decide) (by decide) (by decide),
      by decide⟩

/-- Witness for C1: the theorem applied at `("480p", "9:16")`. -/
theorem c1_calculate_video_size_ok_witness :
    ∃ w h : ℕ, calculate_video_size "480p" "9:16" = .ok (w, h) ∧
      0 < w ∧ 0 < h ∧ w % 2 = 0 ∧ h % 2 = 0 ∧
      |(w : ℚ) / h - layout_ratio "9:16"| ≤ layout_ratio "9:16" / 100 ∧
      (layout_is_portrait "9:16" = true → w = base_height "480p") :=
  c1_calculate_video_size_ok "480p" (by decide) "9:16" (by decide)


open VideoService in
/-- **C3.** (i) For `n ≥ 2` segments, each strictly longer than a valid
transition duration `d`, and any transition type other than `"none"`,
`apply_transitions_to_clips` composes a single clip of total duration
`Σ durations − (n−1)·d`.  (ii) When a pairwise step's first clip `A` is not
longer than `d`, the overlap for that step is reduced to half of `A`'s
duration, so the step composes to `A + B − A/2`. -/
theorem c3_transitions_total_duration :
    (∀ (clips : List ℚ) (t : String) (d : ℚ),
      2 ≤ clips.length → t ∈ TRANSITION_KEYS → t ≠ "none" →
      TRANSITION_DURATION_MIN ≤ d → d ≤ TRANSITION_DURATION_MAX →
      (∀ x ∈ clips, d < x) →
      apply_transitions_to_clips clips t d =
        .ok (clips.sum - ((clips.length - 1 : ℕ) : ℚ) * d)) ∧
    (∀ (a b d : ℚ) (t : String),
      t ∈ TRANSITION_KEYS → t ≠ "none" →
      TRANSITION_DURATION_MIN ≤ d → d ≤ TRANSITION_DURATION_MAX →
      a ≤ d → a * (1/2) ≤ b →
      apply_transition a b t d = .ok (a + b - a * (1/2))) := by
  constructor
  · intro clips t d hlen ht hne hmin hmax hall
    match clips, hlen with
    | a :: b :: l, _ =>
      have hvd := validate_transition_duration_ok hmin hmax
      have ha : d < a := hall a (by simp)
      have hrest : ∀ x ∈ b :: l, d < x := fun y hy => hall y (by simp at hy ⊢; tauto)
      have hvt : validate_transition_type t = .ok t := by
        unfold validate_transition_type; rw [if_pos ht]
      simp only [apply_transitions_to_clips, hvt, if_pos hne, hvd]
      rw [fold_transitions_eq t d ht hne hmin hmax (b :: l) a ha hrest]
      congr 1
  · intro a b d t ht hne hmin hmax ha hb
    exact apply_transition_half_eq a b d t ht hne hmin hmax ha hb

open VideoService in
/-- Witness for C3: two 3s/4s segments with a 0.5s fade compose to 6.5s, and
a pairwise fade whose first clip lasts only 0.4s uses a 0.2s overlap. -/
theorem c3_transitions_total_duration_witness :
    apply_transitions_to_clips [3, 4] "fade" (1/2) =
      .ok (([3, 4] : List ℚ).sum - ((([3, 4] : List ℚ).length - 1 : ℕ) : ℚ) * (1/2)) ∧
    apply_transition (2/5) 3 "fade" (1/2) = .ok (2/5 + 3 - (2/5) * (1/2)) :=
  ⟨c3_transitions_total_duration.1 [3, 4] "fade" (1/2) (by decide) (by decide) (by decide)
      (by norm_num [TRANSITION_DURATION_MIN]) (by norm_num [TRANSITION_DURATION_MAX])
      (by norm_num [List.forall_mem_cons]),
   c3_transitions_total_duration.2 (2/5) 3 (1/2) "fade" (by decide) (by decide)
      (by norm_num [TRANSITION_DURATION_MIN]) (by norm_num [TRANSITION_DURATION_MAX])
      (by norm_num) (by norm_num)⟩

open VideoService in
/-- Counterexample to **C4** as stated: on an empty segment list
`apply_transitions_to_clips` does not return the segments unchanged — it
raises `ValueError` (its own docstring documents the raise). -/
theorem c4_counterexample_empty_raises :
    apply_transitions_to_clips ([] : List ℚ) "fade" (1/2) = .error "empty clip list" := rfl

open VideoService in
/-- **C4 (amended).** A single segment is returned unchanged with no
transition applied (and no validation performed); an empty segment list
raises `ValueError` instead of being returned. -/
theorem c4_single_unchanged_empty_raises :
    (∀ (c : ℚ) (t : String) (d : ℚ), apply_transitions_to_clips [c] t d = .ok c) ∧
    (∀ (t : String) (d : ℚ),
      apply_transitions_to_clips [] t d = .error "empty clip list") :=
  ⟨fun _ _ _ => rfl, fun _ _ => rfl⟩


open VideoService in
/-- Counterexample to **C5** as stated: a cue with non-empty text whose
duration is not positive (`end ≤ start`) and which starts before the composed
duration is dropped by the code, while the claim prescribes one caption for
it. -/
theorem c5_counterexample_degenerate_cue :
    process_sentence_subtitles 10 [⟨"a", 1, 1⟩] = [] ∧
    claimed_sentence_subtitles 10 [⟨"a", 1, 1⟩] = [⟨"a", 1, 0⟩] ∧
    process_sentence_subtitles 10 [⟨"a", 1, 1⟩] ≠
      claimed_sentence_subtitles 10 [⟨"a", 1, 1⟩] := by
  have hp : process_sentence_subtitles 10 [⟨"a", 1, 1⟩] = [] := by
    simp [process_sentence_subtitles]
  have hc : claimed_sentence_subtitles 10 [⟨"a", 1, 1⟩] = [⟨"a", 1, 0⟩] := by
    simp [claimed_sentence_subtitles]
  exact ⟨hp, hc, by rw [hp, hc]; simp⟩

open VideoService in
/-- **C5 (amended).** With precise cues supplied, the render produces exactly
one caption per cue with non-empty text **and positive duration**
(`start < end`), clipped to the composed duration: cues starting at or after
the composed duration are dropped (as are non-positive-duration cues), and a
cue extending past the composed duration is truncated so its caption ends
exactly at the composed duration. -/
theorem c5_precise_cues_clipped :
    ∀ (actual : ℚ) (subs : List Cue),
      process_sentence_subtitles actual subs =
        (subs.filter
            (fun c => decide (c.text ≠ "" ∧ 0 < c.stop - c.start ∧ c.start < actual))).map
          (fun c => ⟨c.text, c.start, min c.stop actual - c.start⟩) := by
  intro actual subs
  induction subs with
  | nil => rfl
  | cons sub rest ih =>
    by_cases h1 : sub.text = ""
    · have hpred : decide (sub.text ≠ "" ∧ 0 < sub.stop - sub.start ∧ sub.start < actual)
          = false := by simp [h1]
      simp only [process_sentence_subtitles, if_pos h1]
      rw [ih, List.filter_cons, hpred]
      simp
    · by_cases h2 : sub.stop - sub.start ≤ 0
      · have hpred : decide (sub.text ≠ "" ∧ 0 < sub.stop - sub.start ∧ sub.start < actual)
            = false := by simp [not_lt.mpr h2]
        simp only [process_sentence_subtitles, if_neg h1, if_pos h2]
        rw [ih, List.filter_cons, hpred]
        simp
      · by_cases h3 : actual ≤ sub.start
        · have hpred : decide (sub.text ≠ "" ∧ 0 < sub.stop - sub.start ∧ sub.start < actual)
              = false := by simp [not_lt.mpr h3]
          simp only [process_sentence_subtitles, if_neg h1, if_neg h2, if_pos h3]
          rw [ih, List.filter_cons, hpred]
          simp
        · have h2' : 0 < sub.stop - sub.start := lt_of_not_le h2
          have h3' : sub.start < actual := lt_of_not_le h3
          have hpred : decide (sub.text ≠ "" ∧ 0 < sub.stop - sub.start ∧ sub.start < actual)
              = true := by simp [h1, h2', h3']
          simp only [process_sentence_subtitles, if_neg h1, if_neg h2, if_neg h3]
          rw [ih, List.filter_cons, hpred]
          simp only [if_pos rfl, List.map_cons]
          congr 2
          rw [min_def]
          split_ifs with h4 h5 <;> first | rfl | linarith

open VideoService in
/-- **C6.** For every BGM volume in `[0,1]` and fades in `[0,5]`: mixing with
no narration, a BGM track and an explicit target duration yields an audio
track of exactly the target duration; with both tracks absent the mixer
returns `None`. -/
theorem c6_mix_audio_tracks_target :
    (∀ (b t vol fin fout : ℚ),
      BGM_VOLUME_MIN ≤ vol → vol ≤ BGM_VOLUME_MAX →
      BGM_FADE_MIN ≤ fin → fin ≤ BGM_FADE_MAX →
      BGM_FADE_MIN ≤ fout → fout ≤ BGM_FADE_MAX →
      mix_audio_tracks none (some b) vol fin fout (some t) = .ok (some t)) ∧
    (∀ (vol fin fout : ℚ) (target : Option ℚ),
      BGM_VOLUME_MIN ≤ vol → vol ≤ BGM_VOLUME_MAX →
      BGM_FADE_MIN ≤ fin → fin ≤ BGM_FADE_MAX →
      BGM_FADE_MIN ≤ fout → fout ≤ BGM_FADE_MAX →
      mix_audio_tracks none none vol fin fout target = .ok none) := by
  have hval : ∀ (x lo hi : ℚ), lo ≤ x → x ≤ hi → ¬ (x < lo ∨ hi < x) := by
    intro x lo hi hlo hhi
    push_neg
    exact ⟨hlo, hhi⟩
  constructor
  · intro b t vol fin fout h1 h2 h3 h4 h5 h6
    simp only [mix_audio_tracks, validate_bgm_volume, validate_bgm_fade_in,
      validate_bgm_fade_out, apply_bgm_fade_effects,
      if_neg (hval vol _ _ h1 h2), if_neg (hval fin _ _ h3 h4), if_neg (hval fout _ _ h5 h6)]
    have hb1 : (if b < t then t else if t < b then t else b) = t := by
      split_ifs with hlt hgt
      · rfl
      · rfl
      · linarith
    simp [hb1]
  · intro vol fin fout target h1 h2 h3 h4 h5 h6
    cases target <;>
      simp [mix_audio_tracks, validate_bgm_volume, validate_bgm_fade_in,
        validate_bgm_fade_out, if_neg (hval vol _ _ h1 h2), if_neg (hval fin _ _ h3 h4),
        if_neg (hval fout _ _ h5 h6)]

open VideoService in
/-- Witness for C6: a 7s BGM mixed to a 5s target at volume 0.3 with 1s fades
yields a 5s track; with no tracks at all the mixer yields `None`. -/
theorem c6_mix_audio_tracks_target_witness :
    mix_audio_tracks none (some 7) (3/10) 1 1 (some 5) = .ok (some 5) ∧
    mix_audio_tracks none none (3/10) 1 1 (some 5) = .ok none :=
  ⟨c6_mix_audio_tracks_target.1 7 5 (3/10) 1 1
      (by norm_num [BGM_VOLUME_MIN]) (by norm_num [BGM_VOLUME_MAX])
      (by norm_num [BGM_FADE_MIN]) (by norm_num [BGM_FADE_MAX])
      (by norm_num [BGM_FADE_MIN]) (by norm_num [BGM_FADE_MAX]),
   c6_mix_audio_tracks_target.2 (3/10) 1 1 (some 5)
      (by norm_num [BGM_VOLUME_MIN]) (by norm_num [BGM_VOLUME_MAX])
      (by norm_num [BGM_FADE_MIN]) (by norm_num [BGM_FADE_MAX])
      (by norm_num [BGM_FADE_MIN]) (by norm_num [BGM_FADE_MAX])⟩


open VideoService in
/-- **C7.** For every status code and integer progress input, the response
built by `build_task_status_response` and serialized by `to_dict` has
progress within `[0, 100]`; `completed` status forces progress 100 and
`failed` forces progress 0; and the dict carries `download_url`/`duration`
only under `completed` status and `error_message` only under `failed`. -/
theorem c7_task_status_contract :
    ∀ (code progress : ℤ) (msg err dl : Option String) (dur : Option ℚ)
      (tid : Option String),
      (0 ≤ ((build_task_status_response code progress msg err dl dur
          tid).to_dict).progress ∧
        ((build_task_status_response code progress msg err dl dur
          tid).to_dict).progress ≤ 100) ∧
      (((build_task_status_response code progress msg err dl dur tid).to_dict).status
          = "completed" →
        ((build_task_status_response code progress msg err dl dur
          tid).to_dict).progress = 100) ∧
      (((build_task_status_response code progress msg err dl dur tid).to_dict).status
          = "failed" →
        ((build_task_status_response code progress msg err dl dur
          tid).to_dict).progress = 0) ∧
      (((build_task_status_response code progress msg err dl dur
            tid).to_dict).download_url ≠ none →
        ((build_task_status_response code progress msg err dl dur
          tid).to_dict).status = "completed") ∧
      (((build_task_status_response code progress msg err dl dur
            tid).to_dict).duration ≠ none →
        ((build_task_status_response code progress msg err dl dur
          tid).to_dict).status = "completed") ∧
      (((build_task_status_response code progress msg err dl dur
            tid).to_dict).error_message ≠ none →
        ((build_task_status_response code progress msg err dl dur
          tid).to_dict).status = "failed") := by
  intro code progress msg err dl dur tid
  simp only [build_task_status_response, TaskStatusResponse.to_dict,
    get_task_status_name]
  by_cases h0 : code = 0 <;> by_cases h1 : code = 1 <;> by_cases h2 : code = 2 <;>
    by_cases h3 : code = 3 <;>
    simp_all

open VideoService in
/-- Witness for C7: a `completed` (code 2) response with raw progress 55 is
serialized with progress 100 and status `"completed"`. -/
theorem c7_task_status_contract_witness :
    ((build_task_status_response 2 55 none none (some "u") (some 3)
        none).to_dict).progress = 100 ∧
    ((build_task_status_response 2 55 none none (some "u") (some 3)
        none).to_dict).status = "completed" :=
  ⟨(c7_task_status_contract 2 55 none none (some "u") (some 3) none).2.1 rfl, rfl⟩


open VideoService in
/-- **C8.** `get_config_with_defaults` is idempotent: applying it to its own
output returns the same dict. -/
theorem c8_get_config_with_defaults_idempotent :
    ∀ config : PyDict,
      get_config_with_defaults (get_config_with_defaults config) =
        get_config_with_defaults config := by
  intro config
  funext k
  unfold get_config_with_defaults
  cases h : CONFIG_DEFAULTS.find? (·.1 == k) with
  | none => simp [h]
  | some p => simp [h]


open VideoService in
/-- **C9.** If the motion effect, the color filter, the
brightness/contrast/saturation adjustment — or all of them — raise on a clip,
the render does not abort: the per-clip transform chain returns the clip
untransformed; and if the transition compositor raises, the segments are
hard-concatenated (total duration: the plain sum) instead of failing. -/
theorem c9_transform_failures_soft_fail :
    (∀ (α : Type) (clip : α) (isImage : Bool) (et : Option String)
        (effectF : α → Except String α) (cf : Option String)
        (colorF : α → Except String α) (b c s : ℚ) (adjF : α → Except String α),
      (∀ x, ∃ e, effectF x = .error e) →
      (∀ x, ∃ e, colorF x = .error e) →
      (∀ x, ∃ e, adjF x = .error e) →
      apply_clip_transforms isImage clip et effectF cf colorF b c s adjF = clip) ∧
    (∀ (clips : List ℚ) (t : String) (d : ℚ) (e : String),
      apply_transitions_to_clips clips t d = .error e →
      compose_with_fallback clips t d = clips.sum) := by
  constructor
  · intro α clip isImage et effectF cf colorF b c s adjF heff hcol hadj
    simp [apply_clip_transforms, soft_apply_error heff, soft_apply_error hcol,
      soft_apply_error hadj]
  · intro clips t d e h
    simp [compose_with_fallback, h]

open VideoService in
/-- Witness for C9: always-raising transforms leave a clip untouched, and a
raising transition call (here: empty clip list) falls back to concatenation. -/
theorem c9_transform_failures_soft_fail_witness :
    apply_clip_transforms true (5 : ℚ) (some "shake") (fun _ => .error "boom")
      (some "vintage") (fun _ => .error "boom") 2 2 2 (fun _ => .error "boom") = 5 ∧
    compose_with_fallback [] "fade" (1/2) = ([] : List ℚ).sum :=
  ⟨c9_transform_failures_soft_fail.1 ℚ 5 true (some "shake") (fun _ => .error "boom")
      (some "vintage") (fun _ => .error "boom") 2 2 2 (fun _ => .error "boom")
      (fun _ => ⟨"boom", rfl⟩) (fun _ => ⟨"boom", rfl⟩) (fun _ => ⟨"boom", rfl⟩),
   c9_transform_failures_soft_fail.2 [] "fade" (1/2) "empty clip list" rfl⟩

open VideoService in
/-- Counterexample to **C10** as stated: the config `{"effect_type": ""}`
carries an unrecognized effect type (`""` is not in `EFFECT_TYPES`), yet the
normalization keeps `""` instead of replacing it with a default — the
falsiness check `if effect_type and ...` skips the replacement. -/
theorem c10_counterexample_falsy_effect_kept :
    (resolve_style_config
        ⟨none, none, none, none, some (some ""), none, none, none, none⟩).effect_type
      = some "" ∧
    ("" ∈ EFFECT_TYPE_KEYS) = False := by
  constructor
  · rfl
  · simp [EFFECT_TYPE_KEYS]

open VideoService in
/-- **C10 (amended).** The styling normalization never raises (it is a total
function): unrecognized `fit_mode`/`transition_type`/`color_filter` values are
replaced by `"crop"`/`"fade"`/`"none"`; a transition duration outside
`[0.3, 2.0]` is replaced by 0.5 and the result always lies in `[0.3, 2.0]`;
a **truthy** unrecognized `effect_type` is replaced by `"none"`, while a falsy
one (Python `None` or `""`) is kept unchanged; brightness, contrast and
saturation are clamped into their valid ranges rather than rejected. -/
theorem c10_style_config_normalization :
    ∀ c : RawStyleConfig,
      (resolve_style_config c).fit_mode ∈ FIT_MODE_KEYS ∧
      (∀ s, c.fit_mode = some s → s ∉ FIT_MODE_KEYS →
        (resolve_style_config c).fit_mode = "crop") ∧
      (resolve_style_config c).transition_type ∈ TRANSITION_KEYS ∧
      (∀ s, c.transition_type = some s → s ∉ TRANSITION_KEYS →
        (resolve_style_config c).transition_type = "fade") ∧
      TRANSITION_DURATION_MIN ≤ (resolve_style_config c).transition_duration ∧
      (resolve_style_config c).transition_duration ≤ TRANSITION_DURATION_MAX ∧
      (∀ q, c.transition_duration = some q →
        (q < TRANSITION_DURATION_MIN ∨ TRANSITION_DURATION_MAX < q) →
        (resolve_style_config c).transition_duration = TRANSITION_DURATION_DEFAULT) ∧
      (resolve_style_config c).color_filter ∈ COLOR_FILTER_KEYS ∧
      (∀ s, c.color_filter = some s → s ∉ COLOR_FILTER_KEYS →
        (resolve_style_config c).color_filter = "none") ∧
      (∀ s, c.effect_type = some (some s) → s ≠ "" → s ∉ EFFECT_TYPE_KEYS →
        (resolve_style_config c).effect_type = some "none") ∧
      (c.effect_type = some none → (resolve_style_config c).effect_type = none) ∧
      (resolve_style_config c).brightness
        = max BRIGHTNESS_MIN (min BRIGHTNESS_MAX (c.brightness.getD 1)) ∧
      (resolve_style_config c).contrast
        = max CONTRAST_MIN (min CONTRAST_MAX (c.contrast.getD 1)) ∧
      (resolve_style_config c).saturation
        = max SATURATION_MIN (min SATURATION_MAX (c.saturation.getD 1)) := by
  intro c
  refine ⟨?_, ?_, ?_, ?_, ?_, ?_, ?_, ?_, ?_, ?_, ?_, rfl, rfl, rfl⟩
  · simp only [resolve_style_config]
    split_ifs with h <;> first | exact h | exact not_not.mp h | decide
  · intro s hs hmem
    simp only [resolve_style_config, hs, Option.getD_some]
    rw [if_pos hmem]
  · simp only [resolve_style_config]
    split_ifs with h <;> first | exact h | exact not_not.mp h | decide
  · intro s hs hmem
    simp only [resolve_style_config, hs, Option.getD_some]
    rw [if_pos hmem]
  · simp only [resolve_style_config]
    split_ifs with h
    · norm_num [TRANSITION_DURATION_MIN, TRANSITION_DURATION_DEFAULT]
    · push_neg at h
      exact h.1
  · simp only [resolve_style_config]
    split_ifs with h
    · norm_num [TRANSITION_DURATION_MAX, TRANSITION_DURATION_DEFAULT]
    · push_neg at h
      exact h.2
  · intro q hq hout
    simp only [resolve_style_config, hq, Option.getD_some]
    rw [if_pos hout]
  · simp only [resolve_style_config]
    split_ifs with h <;> first | exact h | exact not_not.mp h | decide
  · intro s hs hmem
    simp only [resolve_style_config, hs, Option.getD_some]
    rw [if_pos hmem]
  · intro s hs hne hmem
    simp only [resolve_style_config, hs, Option.getD_some]
    rw [if_pos ⟨by simp [truthyStr, hne], by simpa using hmem⟩]
  · intro hs
    simp only [resolve_style_config, hs, Option.getD_some]
    rw [if_neg]
    simp [truthyStr]

open VideoService in
/-- Witness for C10: a config with unknown fit mode, transition type, color
filter and effect type, an out-of-range transition duration and an
out-of-range brightness is normalized to the defaults with brightness clamped
to 2. -/
theorem c10_style_config_normalization_witness :
    (resolve_style_config
        ⟨some "cover", none, some "swirl", some 9, some (some "explode"),
         some "sepia", some 7, none, none⟩).fit_mode = "crop" ∧
    (resolve_style_config
        ⟨some "cover", none, some "swirl", some 9, some (some "explode"),
         some "sepia", some 7, none, none⟩).transition_type = "fade" ∧
    (resolve_style_config
        ⟨some "cover", none, some "swirl", some 9, some (some "explode"),
         some "sepia", some 7, none, none⟩).transition_duration
      = TRANSITION_DURATION_DEFAULT ∧
    (resolve_style_config
        ⟨some "cover", none, some "swirl", some 9, some (some "explode"),
         some "sepia", some 7, none, none⟩).color_filter = "none" ∧
    (resolve_style_config
        ⟨some "cover", none, some "swirl", some 9, some (some "explode"),
         some "sepia", some 7, none, none⟩).effect_type = some "none" ∧
    (resolve_style_config
        ⟨some "cover", none, some "swirl", some 9, some (some "explode"),
         some "sepia", some 7, none, none⟩).brightness
      = max BRIGHTNESS_MIN (min BRIGHTNESS_MAX 7) := by
  have h := c10_style_config_normalization
    ⟨some "cover", none, some "swirl", some 9, some (some "explode"),
     some "sepia", some 7, none, none⟩
  exact ⟨h.2.1 "cover" rfl (by decide), h.2.2.2.1 "swirl" rfl (by decide),
    h.2.2.2.2.2.2.1 9 rfl (by norm_num [TRANSITION_DURATION_MAX]),
    h.2.2.2.2.2.2.2.2.1 "sepia" rfl (by decide),
    h.2.2.2.2.2.2.2.2.2.1 "explode" rfl (by decide) (by decide),
    h.2.2.2.2.2.2.2.2.2.2.2.1⟩
